import Mathlib

/-!
Verification of the grading-and-ledger subsystem of a trading journal
application.  The Python sources are shallowly embedded: dictionaries
become association lists, monetary floats become rationals, and each
Streamlit submit handler becomes a pure function from the loaded
collections to the collections it writes back.
-/

namespace TradingManager

/-- Python dict lookup `d.get(k, False)` on a `str -> bool` map:
first matching key wins, missing keys count as `False`. -/
def dictGetB (d : List (String × Bool)) (k : String) : Bool :=
  match d with
  | [] => false
  | (k', v) :: rest => if k' = k then v else dictGetB rest k

/-- A playbook rule as stored: either a bare string (legacy) or an object
with a `text` field and an optional `mandatory` flag. -/
inductive PRule
  | str (s : String)
  | obj (text : String) (mandatory : Option Bool)
deriving DecidableEq, Repr

/-- Python side: rule.get(text, rule) if the rule is a dict, else the rule itself. -/
def ruleText : PRule → String
  | .str s => s
  | .obj t _ => t

/-- Python side: rule.get(mandatory, True) if the rule is a dict, else True. -/
def ruleMandatory : PRule → Bool
  | .str _ => true
  | .obj _ m => m.getD true

namespace TradeJournal

/-- Helper `get_mandatory_compliance` from `TradeJournal.calculate_grade`:
collect, in order, the compliance booleans of the mandatory rules only
(compliance is keyed by rule text, missing keys count as unchecked). -/
def get_mandatory_compliance : List PRule → List (String × Bool) → List Bool
  | [], _ => []
  | r :: rs, compliance =>
    if ruleMandatory r then
      dictGetB compliance (ruleText r) :: get_mandatory_compliance rs compliance
    else
      get_mandatory_compliance rs compliance

/-- Source `TradeJournal.calculate_grade` (tiered variant, src/trade_journal.py):
grade from mandatory-rule compliance of the C, B and A tiers. -/
def calculate_grade (rules_c_met rules_b_met rules_a_met : List (String × Bool))
    (rules_c rules_b rules_a : List PRule) : String :=
  let c_mandatory := get_mandatory_compliance rules_c rules_c_met
  let b_mandatory := get_mandatory_compliance rules_b rules_b_met
  let a_mandatory := get_mandatory_compliance rules_a rules_a_met
  if ¬c_mandatory.isEmpty ∧ ¬(c_mandatory.all id) then
    "F"
  else
    let c_complete := c_mandatory.isEmpty || c_mandatory.all id
    let b_complete := b_mandatory.isEmpty || b_mandatory.all id
    let a_complete := a_mandatory.isEmpty || a_mandatory.all id
    if c_complete && b_complete && a_complete then "A"
    else if c_complete && b_complete then "B"
    else if c_complete then "C"
    else "F"

end TradeJournal

/-- The mandatory rules of a tier. -/
def mandatoryRules (rules : List PRule) : List PRule :=
  rules.filter ruleMandatory

/-- A tier is complete when it has no mandatory rules or all its mandatory
rules are checked in the compliance map. -/
def tierComplete (rules : List PRule) (compliance : List (String × Bool)) : Prop :=
  mandatoryRules rules = [] ∨
    ∀ r ∈ mandatoryRules rules, dictGetB compliance (ruleText r) = true

instance (rules : List PRule) (compliance : List (String × Bool)) :
    Decidable (tierComplete rules compliance) := by
  unfold tierComplete; infer_instance

lemma get_mandatory_compliance_eq (rules : List PRule) (compliance : List (String × Bool)) :
    TradeJournal.get_mandatory_compliance rules compliance =
      (mandatoryRules rules).map (fun r => dictGetB compliance (ruleText r)) := by
  induction rules with
  | nil => rfl
  | cons r rs ih =>
    by_cases h : ruleMandatory r = true
    · simp [TradeJournal.get_mandatory_compliance, mandatoryRules, List.filter_cons, h]
      simpa [mandatoryRules] using ih
    · simp [TradeJournal.get_mandatory_compliance, mandatoryRules, List.filter_cons, h]
      simpa [mandatoryRules] using ih

lemma tierComplete_iff (rules : List PRule) (compliance : List (String × Bool)) :
    tierComplete rules compliance ↔
      (TradeJournal.get_mandatory_compliance rules compliance).all id = true := by
  rw [get_mandatory_compliance_eq]
  unfold tierComplete
  constructor
  · rintro (h | h)
    · simp [h]
    · simp only [List.all_eq_true, List.mem_map, id]
      rintro b ⟨r, hr, rfl⟩
      exact h r hr
  · intro h
    refine Or.inr (fun r hr => ?_)
    have := List.all_eq_true.mp h _ (List.mem_map_of_mem _ hr)
    simpa using this

/-- C1. Tiered-variant grade resolution: F when the mandatory C rules are
non-empty and one of them is unchecked; otherwise A, B, C or F by the
completeness of the C, B and A tiers. -/
theorem c1_tiered_grade_resolution
    (rules_c_met rules_b_met rules_a_met : List (String × Bool))
    (rules_c rules_b rules_a : List PRule) :
    TradeJournal.calculate_grade rules_c_met rules_b_met rules_a_met
        rules_c rules_b rules_a =
      if mandatoryRules rules_c ≠ [] ∧
          ∃ r ∈ mandatoryRules rules_c, dictGetB rules_c_met (ruleText r) = false then "F"
      else if tierComplete rules_c rules_c_met ∧ tierComplete rules_b rules_b_met ∧
          tierComplete rules_a rules_a_met then "A"
      else if tierComplete rules_c rules_c_met ∧ tierComplete rules_b rules_b_met then "B"
      else if tierComplete rules_c rules_c_met then "C"
      else "F" := by
  have hc := tierComplete_iff rules_c rules_c_met
  have hb := tierComplete_iff rules_b rules_b_met
  have ha := tierComplete_iff rules_a rules_a_met
  have hFcond : (mandatoryRules rules_c ≠ [] ∧
      ∃ r ∈ mandatoryRules rules_c, dictGetB rules_c_met (ruleText r) = false) ↔
      ¬ tierComplete rules_c rules_c_met := by
    unfold tierComplete
    constructor
    · rintro ⟨hne, r, hr, hfalse⟩ (h | h)
      · exact hne h
      · have := h r hr; rw [hfalse] at this; cases this
    · intro h
      constructor
      · intro hnil; exact h (Or.inl hnil)
      · by_contra hno
        push_neg at hno
        exact h (Or.inr (fun r hr => by
          have := hno r hr
          cases hdg : dictGetB rules_c_met (ruleText r)
          · exact absurd hdg this
          · rfl))
  have hFc : (mandatoryRules rules_c ≠ [] ∧
      ∃ r ∈ mandatoryRules rules_c, dictGetB rules_c_met (ruleText r) = false) ↔
      (TradeJournal.get_mandatory_compliance rules_c rules_c_met).all id = false := by
    rw [hFcond, hc, Bool.not_eq_true]
  have key : ∀ (l : List Bool), (l.isEmpty || l.all id) = l.all id := by
    intro l; cases l <;> simp
  have key2 : ∀ (l : List Bool), (¬ l.isEmpty = true ∧ ¬ l.all id = true) ↔ l.all id = false := by
    intro l; cases l <;> simp
  simp only [TradeJournal.calculate_grade, key, key2, hFc, hc, hb, ha]
  cases h1 : (TradeJournal.get_mandatory_compliance rules_c rules_c_met).all id <;>
    cases h2 : (TradeJournal.get_mandatory_compliance rules_b rules_b_met).all id <;>
      cases h3 : (TradeJournal.get_mandatory_compliance rules_a rules_a_met).all id <;>
        simp [h1, h2, h3]

/-- One entry of the position-sizing table: a drawdown percentage and a
label, as in `{"drawdown_pct": 50, "label": "Full Size"}`. -/
structure SizeInfo where
  drawdown_pct : Int
  label : String
deriving DecidableEq, Repr

/-- Python dict lookup returning the first matching entry, or `none`. -/
def dictFind (d : List (String × SizeInfo)) (k : String) : Option SizeInfo :=
  match d with
  | [] => none
  | (k', v) :: rest => if k' = k then some v else dictFind rest k

namespace LiveTradeSession

/-- Source `LiveTradeSession.calculate_grade` (unified variant, src/live_trade.py):
must-have rules are keyed `must_i` by position; any unchecked must-have
forces F, otherwise any checked A rule gives A, else any checked B rule
gives B, else C.  Returns the grade and the size label string.
`must_have_rules` and `sizing` are the values read from settings
(`position_sizing` already defaulted by the caller as in the source). -/
def calculate_grade (must_have_rules : List String) (sizing : List (String × SizeInfo))
    (must_have_checked a_checked b_checked c_checked : List (String × Bool)) :
    String × String :=
  let all_must_have : Bool :=
    if must_have_rules.isEmpty then true
    else (List.range must_have_rules.length).all fun i =>
      dictGetB must_have_checked ("must_" ++ toString i)
  if all_must_have = false then
    ("F", "0% drawdown (" ++ (((dictFind sizing "F").map SizeInfo.label).getD "NO TRADE") ++ ")")
  else
    let any_a := a_checked.any fun p => p.2
    let any_b := b_checked.any fun p => p.2
    let _any_c := c_checked.any fun p => p.2
    let grade := if any_a then "A" else if any_b then "B" else "C"
    let size_info := (dictFind sizing grade).getD ⟨0, "Unknown"⟩
    (grade, toString size_info.drawdown_pct ++ "% drawdown (" ++ size_info.label ++ ")")

end LiveTradeSession

/-- The default position-sizing table hard-coded in
`LiveTradeSession.calculate_grade` as the settings fallback. -/
def default_position_sizing : List (String × SizeInfo) :=
  [("A", ⟨50, "Full Size"⟩), ("B", ⟨30, "Reduced"⟩),
   ("C", ⟨15, "Minimum"⟩), ("F", ⟨0, "NO TRADE"⟩)]

/-- C2. F dominance in the live grader: a configured non-empty must-have
list with any unchecked must-have rule (missing keys count as unchecked)
yields grade F, whatever the A, B and C checkmarks are. -/
theorem c2_live_f_dominance
    (must_have_rules : List String) (sizing : List (String × SizeInfo))
    (must_have_checked a_checked b_checked c_checked : List (String × Bool))
    (hne : must_have_rules ≠ [])
    (i : Nat) (hi : i < must_have_rules.length)
    (hunchecked : dictGetB must_have_checked ("must_" ++ toString i) = false) :
    (LiveTradeSession.calculate_grade must_have_rules sizing
        must_have_checked a_checked b_checked c_checked).1 = "F" := by
  have hempty : must_have_rules.isEmpty = false := by
    cases must_have_rules with
    | nil => exact absurd rfl hne
    | cons a l => rfl
  have hall : ((List.range must_have_rules.length).all fun j =>
      dictGetB must_have_checked ("must_" ++ toString j)) = false := by
    apply Bool.eq_false_iff.mpr
    intro hall
    have := List.all_eq_true.mp hall i (List.mem_range.mpr hi)
    rw [hunchecked] at this
    cases this
  simp [LiveTradeSession.calculate_grade, hempty, hall]

/-- C2 witness: with one must-have rule, nothing checked in the must-have
map, and an A rule checked, the live grader still returns F. -/
theorem c2_live_f_dominance_witness :
    (LiveTradeSession.calculate_grade ["wait for confirmation"] default_position_sizing
        [] [("a_0", true)] [("b_0", true)] []).1 = "F" :=
  c2_live_f_dominance ["wait for confirmation"] default_position_sizing
    [] [("a_0", true)] [("b_0", true)] []
    (by decide) 0 (by decide) (by decide)

/-- C3. Unified-variant grade ordering and default: when every configured
must-have rule is checked (vacuously when none are configured), the grade
is A if any A rule is checked, else B if any B rule is checked, else C —
in particular the empty rule model with nothing checked grades C. -/
theorem c3_live_grade_ordering
    (must_have_rules : List String) (sizing : List (String × SizeInfo))
    (must_have_checked a_checked b_checked c_checked : List (String × Bool))
    (hmust : ∀ i < must_have_rules.length,
      dictGetB must_have_checked ("must_" ++ toString i) = true) :
    (LiveTradeSession.calculate_grade must_have_rules sizing
        must_have_checked a_checked b_checked c_checked).1 =
      if a_checked.any (fun p => p.2) then "A"
      else if b_checked.any (fun p => p.2) then "B"
      else "C" := by
  have hall : ((List.range must_have_rules.length).all fun j =>
      dictGetB must_have_checked ("must_" ++ toString j)) = true :=
    List.all_eq_true.mpr fun j hj => hmust j (List.mem_range.mp hj)
  by_cases hempty : must_have_rules.isEmpty <;>
    simp [LiveTradeSession.calculate_grade, hempty, hall]

/-- C3 witness: the empty rule model with nothing checked grades C (count
of the checked-both case: a checked C rule and a checked B rule grade B;
an A rule checked alongside others grades A). -/
theorem c3_live_grade_ordering_witness :
    (LiveTradeSession.calculate_grade [] [] [] [] [] []).1 = "C" ∧
    (LiveTradeSession.calculate_grade [] [] [] [] [("b_0", true)] [("c_0", true)]).1 = "B" ∧
    (LiveTradeSession.calculate_grade [] [] []
        [("a_0", true)] [("b_0", true)] [("c_0", true)]).1 = "A" := by
  refine ⟨?_, ?_, ?_⟩
  · exact c3_live_grade_ordering [] [] [] [] [] []
      (fun i hi => absurd hi (by simp))
  · exact c3_live_grade_ordering [] [] [] [] [("b_0", true)] [("c_0", true)]
      (fun i hi => absurd hi (by simp))
  · exact c3_live_grade_ordering [] [] [] [("a_0", true)] [("b_0", true)] [("c_0", true)]
      (fun i hi => absurd hi (by simp))

/-- C8 counterexample: a size-policy table whose F entry carries the label
"Half Size".  With a must-have rule left unchecked the grader grades F and
renders that table label, not "NO TRADE" — so F does not map to the
0%/"NO TRADE" policy regardless of the contents of the table: only the 0%
part ignores the table, the label is read from it. -/
theorem c8_f_policy_counterexample :
    LiveTradeSession.calculate_grade ["r0"] [("F", ⟨0, "Half Size"⟩)] [] [] [] [] =
      ("F", "0% drawdown (Half Size)") ∧
    ("0% drawdown (Half Size)" : String) ≠ "0% drawdown (NO TRADE)" := by
  constructor
  · rfl
  · decide

/-- C8 amended: on grade F the rendered policy always has 0% drawdown and
takes its label from the F entry of the table, falling back to "NO TRADE" only
when the F key is missing; for the other grades a missing key falls back
to the safe default, rendered as 0% drawdown with label "Unknown". -/
theorem c8_size_policy_lookup
    (must_have_rules : List String) (sizing : List (String × SizeInfo))
    (must_have_checked a_checked b_checked c_checked : List (String × Bool)) :
    ((LiveTradeSession.calculate_grade must_have_rules sizing
          must_have_checked a_checked b_checked c_checked).1 = "F" →
        (LiveTradeSession.calculate_grade must_have_rules sizing
            must_have_checked a_checked b_checked c_checked).2 =
          "0% drawdown (" ++ (((dictFind sizing "F").map SizeInfo.label).getD "NO TRADE") ++ ")") ∧
    ((LiveTradeSession.calculate_grade must_have_rules sizing
          must_have_checked a_checked b_checked c_checked).1 ≠ "F" →
        dictFind sizing (LiveTradeSession.calculate_grade must_have_rules sizing
          must_have_checked a_checked b_checked c_checked).1 = none →
        (LiveTradeSession.calculate_grade must_have_rules sizing
            must_have_checked a_checked b_checked c_checked).2 =
          "0% drawdown (Unknown)") := by
  unfold LiveTradeSession.calculate_grade
  generalize (if must_have_rules.isEmpty = true then true
    else (List.range must_have_rules.length).all fun i =>
      dictGetB must_have_checked ("must_" ++ toString i)) = amh
  cases amh with
  | false => exact ⟨fun _ => rfl, fun hne => absurd rfl hne⟩
  | true =>
    cases hA : a_checked.any (fun p => p.2) with
    | true =>
      constructor
      · intro h
        simp at h
      · intro _ hnone
        simp at hnone
        simp [hnone]
        try rfl
    | false =>
      cases hB : b_checked.any (fun p => p.2) with
      | true =>
        constructor
        · intro h
          simp at h
        · intro _ hnone
          simp at hnone
          simp [hnone]
          try rfl
      | false =>
        constructor
        · intro h
          simp at h
        · intro _ hnone
          simp at hnone
          simp [hnone]
          try rfl

/-- C8 amended witness: with no F entry configured the F branch renders
the NO TRADE fallback, and with an empty table the C lookup renders the
Unknown fallback instead of crashing. -/
theorem c8_size_policy_lookup_witness :
    (LiveTradeSession.calculate_grade ["r0"] [] [] [] [] []).2 =
      "0% drawdown (NO TRADE)" ∧
    (LiveTradeSession.calculate_grade [] [] [] [] [] []).2 =
      "0% drawdown (Unknown)" := by
  constructor
  · exact (c8_size_policy_lookup ["r0"] [] [] [] [] []).1 (by rfl)
  · exact (c8_size_policy_lookup [] [] [] [] [] []).2 (by decide) (by rfl)

/-- An account record as used by src/live_trade.py and
src/config_manager.py: `current_balance` is optional, with
acc.get(current_balance, acc.get(account_size, 0)) as the
read-side fallback. -/
structure LAccount where
  prop_firm : String
  account_size : Rat
  account_number : String
  status : String
  current_balance : Option Rat
deriving DecidableEq, Repr

instance : Inhabited LAccount := ⟨⟨"Unknown", 0, "N/A", "", none⟩⟩

/-- Python side: acc.get(current_balance, acc.get(account_size, 0)). -/
def acctBal (a : LAccount) : Rat :=
  a.current_balance.getD a.account_size

/-- The display string built for each active account in the account
selectbox of the trade-entry modal. -/
def accountOptionLabel (a : LAccount) : String :=
  a.prop_firm ++ " - $" ++ toString a.account_size ++ " (" ++ a.account_number ++ ")"

/-- A logged trade; only the fields that feed the ledger claims are kept
(the purely descriptive form fields do not influence balances or counts). -/
structure LTrade where
  account : String
  account_id : String
  symbol : String
  direction : String
  pnl_net : Rat
  grade : String
deriving DecidableEq, Repr

/-- The balance-update loop of the trade-entry modal (src/live_trade.py
lines 335-341): add the net P&L to the first account whose
`account_number` matches the selected account. -/
def applyPnlByNumber (aid : String) (pnl_net : Rat) : List LAccount → List LAccount
  | [] => []
  | a :: rest =>
    if a.account_number = aid then
      { a with current_balance := some (acctBal a + pnl_net) } :: rest
    else
      a :: applyPnlByNumber aid pnl_net rest

namespace LiveTradeSession

/-- The active accounts offered in the modal: the accounts whose status
is evaluation or funded. -/
def active_accounts (accounts : List LAccount) : List LAccount :=
  accounts.filter fun a => a.status = "evaluation" || a.status = "funded"

/-- The submit branch of `LiveTradeSession.render_trade_entry_modal`
(src/live_trade.py lines 301-344).  `selected_account` is the selectbox
value (`none` when there are no active accounts).  The guard
`if submit and selected_account and active_accounts` leaves the store
untouched when it fails; `account_options.index(selected_account)`
raises `ValueError` (modelled as an error, before any write) when the
string is not among the options; otherwise the matching account balance
is updated and the trade is appended to the trades collection. -/
def render_trade_entry_modal_submit (accounts : List LAccount) (trades : List LTrade)
    (submit : Bool) (selected_account : Option String)
    (pnl_net : Rat) (symbol direction : String) (grade : String) :
    Except String (List LAccount × List LTrade) :=
  let active := active_accounts accounts
  let account_options := active.map accountOptionLabel
  match selected_account with
  | none => .ok (accounts, trades)
  | some sel =>
    if submit = false ∨ active.isEmpty then .ok (accounts, trades)
    else
      match account_options.findIdx? (fun o => o = sel) with
      | none => .error "ValueError: not in list"
      | some acc_idx =>
        let selected_acc := active.getD acc_idx default
        let trade_data : LTrade :=
          { account := sel, account_id := selected_acc.account_number,
            symbol := symbol, direction := direction, pnl_net := pnl_net, grade := grade }
        let all_accounts := applyPnlByNumber selected_acc.account_number pnl_net accounts
        .ok (all_accounts, trades ++ [trade_data])

end LiveTradeSession

/-- C4. Logging a trade through the trade-entry modal is rejected — no
trade appended and no account balance changed — whenever the referenced
account does not exist among the (active) accounts of the accounts
collection: every successful outcome of the submit handler is then the
unchanged store. -/
theorem c4_log_rejected_on_unknown_account
    (accounts : List LAccount) (trades : List LTrade)
    (submit : Bool) (selected_account : Option String)
    (pnl_net : Rat) (symbol direction grade : String)
    (hmissing : ∀ s, selected_account = some s →
      s ∉ (LiveTradeSession.active_accounts accounts).map accountOptionLabel) :
    ∀ st, LiveTradeSession.render_trade_entry_modal_submit accounts trades
        submit selected_account pnl_net symbol direction grade = .ok st →
      st = (accounts, trades) := by
  intro st hok
  unfold LiveTradeSession.render_trade_entry_modal_submit at hok
  cases hsel : selected_account with
  | none =>
    rw [hsel] at hok
    simp at hok
    exact hok.symm
  | some s =>
    rw [hsel] at hok
    simp only at hok
    by_cases hguard : submit = false ∨ (LiveTradeSession.active_accounts accounts).isEmpty
    · rw [if_pos hguard] at hok
      cases hok
      rfl
    · rw [if_neg hguard] at hok
      have hnone : ((LiveTradeSession.active_accounts accounts).map accountOptionLabel).findIdx?
          (fun o => o = s) = none := by
        rw [List.findIdx?_eq_none_iff]
        intro o ho
        have hne : o ≠ s := fun h => hmissing s hsel (h ▸ ho)
        simp [hne]
      rw [hnone] at hok
      cases hok

/-- C4 witness: with one configured account whose status is neither
evaluation nor funded, the account selectbox offers nothing; submitting
with a stale selection string leaves both collections unchanged. -/
theorem c4_log_rejected_on_unknown_account_witness :
    (([⟨"Tradeify", 50000, "TR-1", "blown", some 48000⟩] : List LAccount), ([] : List LTrade)) =
      ([⟨"Tradeify", 50000, "TR-1", "blown", some 48000⟩], []) :=
  c4_log_rejected_on_unknown_account
    [⟨"Tradeify", 50000, "TR-1", "blown", some 48000⟩] [] true (some "ghost")
    120 "ES" "Long" "A"
    (by intro s hs; simp at hs; subst hs; simp [LiveTradeSession.active_accounts])
    ([⟨"Tradeify", 50000, "TR-1", "blown", some 48000⟩], []) (by rfl)

/-- An account as used by the checkpoint revision
(src/.ipynb_checkpoints/trade_journal-checkpoint.py): `current_balance`
is accessed directly, matching is by firm, type and number. -/
structure CAccount where
  prop_firm : String
  account_type : String
  account_number : String
  current_balance : Rat
  status : String
deriving DecidableEq, Repr

/-- A trade of the checkpoint revision; the ledger-relevant fields. -/
structure CTrade where
  id : Nat
  account_id : String
  pnl_net : Rat
deriving DecidableEq, Repr

instance : Inhabited CTrade := ⟨⟨0, "", 0⟩⟩

lemma getD_append_singleton {α : Type} (ts : List α) (t d : α) :
    (ts ++ [t]).getD ts.length d = t := by
  induction ts with
  | nil => rfl
  | cons a ts ih => exact ih

lemma eraseIdx_append_singleton {α : Type} (ts : List α) (t : α) :
    (ts ++ [t]).eraseIdx ts.length = ts := by
  induction ts with
  | nil => rfl
  | cons a ts ih => simp [List.eraseIdx, ih]

namespace CheckpointTradeJournal

/-- Balance update loop of the checkpoint `log_new_trade` (lines 244-251):
`current_balance += pnl_net` on the first account matching the selected
account by firm, type and number. -/
def applyPnlTriple (sel : CAccount) (pnl_net : Rat) : List CAccount → List CAccount
  | [] => []
  | a :: rest =>
    if a.prop_firm = sel.prop_firm ∧ a.account_type = sel.account_type ∧
        a.account_number = sel.account_number then
      { a with current_balance := a.current_balance + pnl_net } :: rest
    else
      a :: applyPnlTriple sel pnl_net rest

/-- Checkpoint `DataStorage.add_trade`: append with `id = len(trades)+1`. -/
def add_trade (trades : List CTrade) (account_id : String) (pnl_net : Rat) : List CTrade :=
  trades ++ [{ id := trades.length + 1, account_id := account_id, pnl_net := pnl_net }]

/-- Checkpoint `log_new_trade` submit: apply the net P&L to the selected
account and append the trade record. -/
def log_new_trade (accounts : List CAccount) (trades : List CTrade)
    (sel : CAccount) (pnl_net : Rat) : List CAccount × List CTrade :=
  (applyPnlTriple sel pnl_net accounts, add_trade trades sel.account_number pnl_net)

/-- Balance restore loop of the checkpoint `Delete Trade` branch
(lines 727-735): subtract the recorded pnl_net of the trade from the
current_balance of the first account whose number equals the account_id
of the trade. -/
def restorePnl (account_id : String) (pnl_net : Rat) : List CAccount → List CAccount
  | [] => []
  | a :: rest =>
    if a.account_number = account_id then
      { a with current_balance := a.current_balance - pnl_net } :: rest
    else
      a :: restorePnl account_id pnl_net rest

/-- Checkpoint Delete Trade branch (lines 724-742): restore the recorded
net P&L of the trade to the owning account, then remove the trade
record. -/
def delete_trade (accounts : List CAccount) (trades : List CTrade) (idx : Nat) :
    List CAccount × List CTrade :=
  let trade := trades.getD idx default
  (restorePnl trade.account_id trade.pnl_net accounts, trades.eraseIdx idx)

/-- Balance adjustment loop of the checkpoint `Save Changes` branch
(lines 702-712): `current_balance += pnl_difference` on the first account
whose number equals the account_id of the trade. -/
def adjustBalance (account_id : String) (diff : Rat) : List CAccount → List CAccount
  | [] => []
  | a :: rest =>
    if a.account_number = account_id then
      { a with current_balance := a.current_balance + diff } :: rest
    else
      a :: adjustBalance account_id diff rest

/-- Checkpoint `Save Changes` branch (lines 651-722): write the edited
trade back and, when the net P&L changed, adjust the owning account by
the difference (`edited_pnl_net - old_pnl`). -/
def edit_trades_save (accounts : List CAccount) (trades : List CTrade) (idx : Nat)
    (edited_pnl_net : Rat) : List CTrade × List CAccount :=
  let trade := trades.getD idx default
  let old_pnl := trade.pnl_net
  let pnl_difference := edited_pnl_net - old_pnl
  let trades' := trades.set idx { trade with pnl_net := edited_pnl_net }
  let accounts' :=
    if pnl_difference ≠ 0 then adjustBalance trade.account_id pnl_difference accounts
    else accounts
  (trades', accounts')

end CheckpointTradeJournal

/-- An account as used by the current src/trade_journal.py generation:
the balance field is optional with account.get(balance, size) as the
read-side fallback. -/
structure JAccount where
  name : String
  firm : String
  size : Rat
  balance : Option Rat
deriving DecidableEq, Repr

instance : Inhabited JAccount := ⟨⟨"", "", 0, none⟩⟩

/-- Python side: account.get(balance, size). -/
def jBal (a : JAccount) : Rat :=
  a.balance.getD a.size

/-- A trade of the current journal generation; ledger-relevant fields. -/
structure JTrade where
  account : String
  playbook : String
  pnl : Rat
  grade : String
deriving DecidableEq, Repr

instance : Inhabited JTrade := ⟨⟨"", "", 0, "C"⟩⟩

namespace TradeJournal

/-- Balance update of the current `log_new_trade` (lines 213-215):
set the balance to account.get(balance, size) + pnl on the account at
the selected index. -/
def setBalanceAt : List JAccount → Nat → Rat → List JAccount
  | [], _, _ => []
  | a :: rest, 0, pnl => { a with balance := some (jBal a + pnl) } :: rest
  | a :: rest, Nat.succ n, pnl => a :: setBalanceAt rest n pnl

/-- Current `log_new_trade` submit (src/trade_journal.py lines 167-215):
append the trade record and add the P&L to the selected account balance. -/
def log_new_trade (accounts : List JAccount) (trades : List JTrade)
    (account_idx : Nat) (pnl : Rat) (acct playbook grade : String) :
    List JAccount × List JTrade :=
  (setBalanceAt accounts account_idx pnl,
   trades ++ [{ account := acct, playbook := playbook, pnl := pnl, grade := grade }])

/-- Current `Delete Trade` branch of `edit_trades`
(src/trade_journal.py lines 466-470): pop the trade and save the trades;
the accounts collection is never loaded or written. -/
def edit_trades_delete (accounts : List JAccount) (trades : List JTrade)
    (selected_idx : Nat) : List JAccount × List JTrade :=
  (accounts, trades.eraseIdx selected_idx)

/-- Current `Save Changes` branch of `edit_trades`
(src/trade_journal.py lines 432-463): overwrite the selected trade with
the edited fields (new P&L, recomputed grade) and save the trades; the
accounts collection is never loaded or written. -/
def edit_trades_save (accounts : List JAccount) (trades : List JTrade)
    (selected_idx : Nat) (edit_pnl : Rat) (new_grade : String) :
    List JAccount × List JTrade :=
  let trade := trades.getD selected_idx default
  (accounts, trades.set selected_idx { trade with pnl := edit_pnl, grade := new_grade })

end TradeJournal

/-- C5. Log-then-delete round trip.  First part: in the checkpoint
revision, logging net P&L p onto an account with balance X gives X + p,
and deleting that trade restores the account record exactly and returns
the trade list to its prior value.  Second part (the bug): in the current
src/trade_journal.py, the Delete Trade branch removes the record without
reversing the balance, so logging p = 5 onto a balance of 100 and then
deleting leaves 105, not 100. -/
theorem c5_log_delete_round_trip :
    (∀ (X p : Rat) (ts : List CTrade),
      (CheckpointTradeJournal.log_new_trade
          [⟨"Tradeify", "100K Growth", "TR-1", X, "funded"⟩] ts
          ⟨"Tradeify", "100K Growth", "TR-1", X, "funded"⟩ p).1 =
        [⟨"Tradeify", "100K Growth", "TR-1", X + p, "funded"⟩] ∧
      (CheckpointTradeJournal.delete_trade
          (CheckpointTradeJournal.log_new_trade
            [⟨"Tradeify", "100K Growth", "TR-1", X, "funded"⟩] ts
            ⟨"Tradeify", "100K Growth", "TR-1", X, "funded"⟩ p).1
          (CheckpointTradeJournal.log_new_trade
            [⟨"Tradeify", "100K Growth", "TR-1", X, "funded"⟩] ts
            ⟨"Tradeify", "100K Growth", "TR-1", X, "funded"⟩ p).2
          ts.length) =
        ([⟨"Tradeify", "100K Growth", "TR-1", X, "funded"⟩], ts)) ∧
    ((TradeJournal.edit_trades_delete
        (TradeJournal.log_new_trade [⟨"Main", "Tradeify", 100, none⟩] [] 0 5
          "Main" "Scalping Setup" "C").1
        (TradeJournal.log_new_trade [⟨"Main", "Tradeify", 100, none⟩] [] 0 5
          "Main" "Scalping Setup" "C").2 0).1 =
      [⟨"Main", "Tradeify", 100, some 105⟩] ∧
     (105 : Rat) ≠ 100) := by
  constructor
  · intro X p ts
    constructor
    · simp [CheckpointTradeJournal.log_new_trade, CheckpointTradeJournal.applyPnlTriple]
    · unfold CheckpointTradeJournal.delete_trade
      simp only [CheckpointTradeJournal.log_new_trade, CheckpointTradeJournal.add_trade,
        CheckpointTradeJournal.applyPnlTriple, getD_append_singleton, eraseIdx_append_singleton]
      simp [CheckpointTradeJournal.restorePnl, add_sub_cancel_right]
  · constructor
    · simp [TradeJournal.edit_trades_delete, TradeJournal.log_new_trade,
        TradeJournal.setBalanceAt, jBal]
      norm_num
    · norm_num

/-- C6. Balance conservation on trade edit.  First part: in the
checkpoint revision, editing a trade with recorded net P&L p1 to p2
against an account holding an arbitrary balance X (arbitrary: other
trades or withdrawals may have moved it since creation) adjusts the
balance to exactly X + (p2 - p1), and the trade record now carries p2.
Second part (the bug): the current src/trade_journal.py Save Changes
branch writes the new P&L but never touches the accounts collection, so
editing a trade from 10 to 30 leaves the balance at 100 instead of 120. -/
theorem c6_edit_adjusts_balance_by_difference :
    (∀ (X p1 p2 : Rat),
      CheckpointTradeJournal.edit_trades_save
          [⟨"Tradeify", "100K Growth", "TR-1", X, "funded"⟩]
          [⟨1, "TR-1", p1⟩] 0 p2 =
        ([⟨1, "TR-1", p2⟩],
         [⟨"Tradeify", "100K Growth", "TR-1", X + (p2 - p1), "funded"⟩])) ∧
    ((TradeJournal.edit_trades_save [⟨"Main", "Tradeify", 100, none⟩]
        [⟨"Main", "Scalping Setup", 10, "C"⟩] 0 30 "C").1 =
      [⟨"Main", "Tradeify", 100, none⟩] ∧
     jBal (⟨"Main", "Tradeify", 100, none⟩ : JAccount) = 100 ∧
     (100 : Rat) ≠ 100 + (30 - 10)) := by
  constructor
  · intro X p1 p2
    unfold CheckpointTradeJournal.edit_trades_save
    by_cases h : p2 - p1 = 0
    · have hp : p2 = p1 := by linarith
      simp [h, hp, CheckpointTradeJournal.adjustBalance]
    · simp [h, CheckpointTradeJournal.adjustBalance]
  · refine ⟨rfl, rfl, by norm_num⟩

/-- The allocation breakdown of a withdrawal. -/
structure Allocs where
  debt : Rat
  reinvestment : Rat
  savings : Rat
  personal : Rat
deriving DecidableEq, Repr

/-- A withdrawal record as built by `manage_withdrawals`
(src/config_manager.py lines 380-395), with the id stamped by
`DataStorage.add_withdrawal`. -/
structure Withdrawal where
  id : Nat
  account : String
  account_id : String
  prop_firm : String
  amount : Rat
  date : String
  status : String
  allocs : Allocs
  reinvest_details : String
  notes : String
deriving DecidableEq, Repr

instance : Inhabited Withdrawal := ⟨⟨0, "", "", "", 0, "", "", ⟨0, 0, 0, 0⟩, "", ""⟩⟩

/-- Source `DataStorage.add_withdrawal` (checkpoint data storage, the definition
this repository provides): append with `id = len(withdrawals)+1`. -/
def add_withdrawal (withdrawals : List Withdrawal) (w : Withdrawal) : List Withdrawal :=
  withdrawals ++ [{ w with id := withdrawals.length + 1 }]

/-- Balance deduction loop after logging a withdrawal
(src/config_manager.py lines 399-406): subtract the amount from the first
account whose number matches the selected account. -/
def deductWithdrawal (aid : String) (amount : Rat) : List LAccount → List LAccount
  | [] => []
  | a :: rest =>
    if a.account_number = aid then
      { a with current_balance := some (acctBal a - amount) } :: rest
    else
      a :: deductWithdrawal aid amount rest

/-- The balance (with the account-size fallback) of the first account
carrying the given account number, if any. -/
def balanceOf (accounts : List LAccount) (aid : String) : Option Rat :=
  (accounts.find? fun a => a.account_number = aid).map acctBal

lemma balanceOf_deductWithdrawal (aid : String) (amount : Rat) (accounts : List LAccount) :
    balanceOf (deductWithdrawal aid amount accounts) aid =
      (balanceOf accounts aid).map (fun b => b - amount) := by
  induction accounts with
  | nil => rfl
  | cons a rest ih =>
    by_cases h : a.account_number = aid
    · simp [deductWithdrawal, balanceOf, h, List.find?, acctBal]
    · simp only [deductWithdrawal, if_neg h]
      simp only [balanceOf, List.find?] at ih ⊢
      rw [show (decide (a.account_number = aid)) = false by simp [h]]
      exact ih

/-- Whether an Except value is a success. -/
def exceptIsOk {ε α : Type} : Except ε α → Bool
  | .ok _ => true
  | .error _ => false

namespace ConfigManager

/-- The `Log Withdrawal` submit branch of `ConfigManager.manage_withdrawals`
(src/config_manager.py lines 358-409): `remaining = amount - (debt +
reinvestment + savings + personal)`; any nonzero remainder is rejected
with a validation error before anything is written, otherwise the
withdrawal record is appended and the amount is deducted from the
balance of the selected account. -/
def manage_withdrawals_submit (withdrawals : List Withdrawal) (accounts : List LAccount)
    (selected_acc : LAccount)
    (amount debt_amt reinvest_amt savings_amt personal_amt : Rat)
    (wdate status reinvest_details notes : String) :
    Except String (List Withdrawal × List LAccount) :=
  let allocated := debt_amt + reinvest_amt + savings_amt + personal_amt
  let remaining := amount - allocated
  if remaining ≠ 0 then
    .error "Please allocate the exact withdrawal amount"
  else
    let withdrawal_data : Withdrawal :=
      { id := 0, account := accountOptionLabel selected_acc,
        account_id := selected_acc.account_number,
        prop_firm := selected_acc.prop_firm, amount := amount, date := wdate,
        status := status,
        allocs := ⟨debt_amt, reinvest_amt, savings_amt, personal_amt⟩,
        reinvest_details := reinvest_details, notes := notes }
    .ok (add_withdrawal withdrawals withdrawal_data,
         deductWithdrawal selected_acc.account_number amount accounts)

end ConfigManager

/-- C7. Withdrawal allocation exactness: the submit succeeds exactly when
debt + reinvestment + savings + personal equals the amount; on success
exactly one withdrawal record is appended and the balance of the
selected account drops by the amount; on any mismatch the result is the validation
error, with no state produced at all. -/
theorem c7_withdrawal_allocation_exactness
    (withdrawals : List Withdrawal) (accounts : List LAccount) (selected_acc : LAccount)
    (amount debt_amt reinvest_amt savings_amt personal_amt : Rat)
    (wdate status reinvest_details notes : String) :
    (exceptIsOk (ConfigManager.manage_withdrawals_submit withdrawals accounts selected_acc
        amount debt_amt reinvest_amt savings_amt personal_amt
        wdate status reinvest_details notes) = true ↔
      debt_amt + reinvest_amt + savings_amt + personal_amt = amount) ∧
    (∀ ws accs, ConfigManager.manage_withdrawals_submit withdrawals accounts selected_acc
        amount debt_amt reinvest_amt savings_amt personal_amt
        wdate status reinvest_details notes = .ok (ws, accs) →
      ws.length = withdrawals.length + 1 ∧
      balanceOf accs selected_acc.account_number =
        (balanceOf accounts selected_acc.account_number).map (fun b => b - amount)) ∧
    (debt_amt + reinvest_amt + savings_amt + personal_amt ≠ amount →
      ConfigManager.manage_withdrawals_submit withdrawals accounts selected_acc
        amount debt_amt reinvest_amt savings_amt personal_amt
        wdate status reinvest_details notes =
          .error "Please allocate the exact withdrawal amount") := by
  have hrem : (amount - (debt_amt + reinvest_amt + savings_amt + personal_amt) = 0) ↔
      debt_amt + reinvest_amt + savings_amt + personal_amt = amount := by
    rw [sub_eq_zero, eq_comm]
  unfold ConfigManager.manage_withdrawals_submit
  by_cases h : amount - (debt_amt + reinvest_amt + savings_amt + personal_amt) = 0
  · refine ⟨?_, ?_, ?_⟩
    · simp [h, exceptIsOk, hrem.mp h]
    · intro ws accs hok
      rw [if_neg (by simpa using h)] at hok
      cases hok
      exact ⟨by simp [add_withdrawal], balanceOf_deductWithdrawal _ _ _⟩
    · intro hne
      exact absurd (hrem.mp h) hne
  · refine ⟨?_, ?_, ?_⟩
    · simp [h, exceptIsOk]
      exact fun hsum => absurd (hrem.mpr hsum) h
    · intro ws accs hok
      rw [if_pos (by simpa using h)] at hok
      cases hok
    · intro _
      rw [if_pos (by simpa using h)]

/-- C7 witness: allocation parts 10, 20, 30, 40 against amount 100 are
accepted; the same parts against amount 99 are rejected with the
validation error. -/
theorem c7_withdrawal_allocation_exactness_witness :
    exceptIsOk (ConfigManager.manage_withdrawals_submit []
        [⟨"Tradeify", 50000, "TR-1", "funded", some 52000⟩]
        ⟨"Tradeify", 50000, "TR-1", "funded", some 52000⟩
        100 10 20 30 40 "2025-06-01" "paid" "" "") = true ∧
    ConfigManager.manage_withdrawals_submit []
        [⟨"Tradeify", 50000, "TR-1", "funded", some 52000⟩]
        ⟨"Tradeify", 50000, "TR-1", "funded", some 52000⟩
        99 10 20 30 40 "2025-06-01" "paid" "" "" =
      .error "Please allocate the exact withdrawal amount" :=
  ⟨(c7_withdrawal_allocation_exactness []
      [⟨"Tradeify", 50000, "TR-1", "funded", some 52000⟩]
      ⟨"Tradeify", 50000, "TR-1", "funded", some 52000⟩
      100 10 20 30 40 "2025-06-01" "paid" "" "").1.mpr (by norm_num),
   (c7_withdrawal_allocation_exactness []
      [⟨"Tradeify", 50000, "TR-1", "funded", some 52000⟩]
      ⟨"Tradeify", 50000, "TR-1", "funded", some 52000⟩
      99 10 20 30 40 "2025-06-01" "paid" "" "").2.2 (by norm_num)⟩

/-- The outcome of opening and JSON-parsing a file, as observed by
`DataStorage.load_data`: the open can raise `FileNotFoundError`, the
parse can raise `JSONDecodeError`, or a list of records is produced. -/
inductive ReadOutcome (α : Type)
  | fileNotFound
  | decodeError
  | json (records : List α)

/-- Generic first-match association lookup (Python dict access). -/
def assocFind {β : Type} (d : List (String × β)) (k : String) : Option β :=
  match d with
  | [] => none
  | (k', v) :: rest => if k' = k then some v else assocFind rest k

namespace DataStorage

/-- The collection-to-filename table of `DataStorage` (src/data_storage.py
lines 17-25). -/
def data_files : List (String × String) :=
  [("prop_firms", "prop_firms.json"), ("accounts", "accounts.json"),
   ("playbooks", "playbooks.json"), ("trades", "trades.json"),
   ("withdrawals", "withdrawals.json"),
   ("psychological_checkins", "psychological_checkins.json"),
   ("config", "config.json")]

/-- Source `DataStorage.get_filepath`: unknown data types raise `ValueError`,
known ones join the data directory with the filename. -/
def get_filepath (data_dir : String) (data_type : String) : Except String String :=
  match assocFind data_files data_type with
  | none => .error ("Unknown data type: " ++ data_type)
  | some filename => .ok (data_dir ++ "/" ++ filename)

/-- Source `DataStorage.load_data` (src/data_storage.py lines 47-54): both
`FileNotFoundError` and `json.JSONDecodeError` are caught and the empty
list is returned; only an unknown data type propagates an error. -/
def load_data {α : Type} (data_dir data_type : String)
    (fs : String → ReadOutcome α) : Except String (List α) :=
  match get_filepath data_dir data_type with
  | .error e => .error e
  | .ok filepath =>
    match fs filepath with
    | .fileNotFound => .ok []
    | .decodeError => .ok []
    | .json records => .ok records

end DataStorage

/-- A file as observed by the checkpoint `DataStorage.load_json`: absent,
or present with raw content. -/
inductive CPFile
  | absent
  | present (content : String)

namespace CheckpointDataStorage

/-- Checkpoint `DataStorage.load_json`
(src/.ipynb_checkpoints/data_storage-checkpoint.py lines 23-36): a
missing file, stripped-empty content, or a `JSONDecodeError` (parse
failure, modelled by the parse oracle returning `none`) all yield
`default or []`; otherwise the parsed records are returned. -/
def load_json {α : Type} (parseJ : String → Option (List α)) (file : CPFile)
    (defaultV : Option (List α)) : List α :=
  match file with
  | .absent => defaultV.getD []
  | .present content =>
    if content.trim = "" then defaultV.getD []
    else
      match parseJ content.trim with
      | none => defaultV.getD []
      | some v => v

end CheckpointDataStorage

/-- C9. Storage degradation: for every known collection name, a missing
file and a malformed (undecodable) file both load as the empty
collection through `DataStorage.load_data` rather than an error; the
checkpoint `load_json` with no default likewise returns the empty list
for an absent file and for content that fails to parse. -/
theorem c9_storage_degradation {α : Type} (data_dir data_type filepath : String)
    (fs : String → ReadOutcome α)
    (hknown : DataStorage.get_filepath data_dir data_type = .ok filepath) :
    (fs filepath = .fileNotFound →
      DataStorage.load_data data_dir data_type fs = .ok ([] : List α)) ∧
    (fs filepath = .decodeError →
      DataStorage.load_data data_dir data_type fs = .ok ([] : List α)) ∧
    (∀ (parseJ : String → Option (List α)),
      CheckpointDataStorage.load_json parseJ .absent none = ([] : List α) ∧
      ∀ content, parseJ content.trim = none →
        CheckpointDataStorage.load_json parseJ (.present content) none = []) := by
  refine ⟨?_, ?_, ?_⟩
  · intro hfs
    unfold DataStorage.load_data
    rw [hknown]
    simp [hfs]
  · intro hfs
    unfold DataStorage.load_data
    rw [hknown]
    simp [hfs]
  · intro parseJ
    refine ⟨rfl, ?_⟩
    intro content hparse
    by_cases htrim : content.trim = ""
    · simp [CheckpointDataStorage.load_json, htrim]
    · simp [CheckpointDataStorage.load_json, htrim, hparse]

/-- C9 witness: the trades collection with a missing file and with a
corrupted file both load empty; the checkpoint loader with no default
behaves the same on an absent file and on unparseable content. -/
theorem c9_storage_degradation_witness :
    DataStorage.load_data "trading_data" "trades"
        (fun _ => (ReadOutcome.fileNotFound : ReadOutcome LTrade)) = .ok [] ∧
    DataStorage.load_data "trading_data" "trades"
        (fun _ => (ReadOutcome.decodeError : ReadOutcome LTrade)) = .ok [] ∧
    CheckpointDataStorage.load_json (fun _ => (none : Option (List LTrade)))
        .absent none = [] ∧
    CheckpointDataStorage.load_json (fun _ => (none : Option (List LTrade)))
        (.present "corrupted data") none = [] := by
  refine ⟨?_, ?_, ?_, ?_⟩
  · exact (@c9_storage_degradation LTrade "trading_data" "trades"
      "trading_data/trades.json" (fun _ => ReadOutcome.fileNotFound) rfl).1 rfl
  · exact (@c9_storage_degradation LTrade "trading_data" "trades"
      "trading_data/trades.json" (fun _ => ReadOutcome.decodeError) rfl).2.1 rfl
  · exact ((@c9_storage_degradation LTrade "trading_data" "trades"
      "trading_data/trades.json" (fun _ => ReadOutcome.fileNotFound) rfl).2.2
      (fun _ => none)).1
  · exact ((@c9_storage_degradation LTrade "trading_data" "trades"
      "trading_data/trades.json" (fun _ => ReadOutcome.fileNotFound) rfl).2.2
      (fun _ => none)).2 "corrupted data" rfl

/-- Lexicographic comparison of character lists, the order Python uses
for its string comparisons (and hence for date strings in `sorted`). -/
def charListLt : List Char → List Char → Bool
  | [], [] => false
  | [], _ :: _ => true
  | _ :: _, [] => false
  | c :: cs, d :: ds => if c < d then true else if d < c then false else charListLt cs ds

/-- Python string `<` (code-point lexicographic). -/
def pyStrLt (a b : String) : Bool := charListLt a.data b.data

/-- Stable insertion into a date-descending list: the incoming element is
placed before the first entry whose date is not greater, which preserves
the original relative order of equal dates. -/
def insertDateDesc (a : Withdrawal) : List Withdrawal → List Withdrawal
  | [] => [a]
  | x :: xs => if pyStrLt a.date x.date then x :: insertDateDesc a xs else a :: x :: xs

/-- Python side: sorted(withdrawals, key date, reverse): a stable sort,
date descending. -/
def sortByDateDesc : List Withdrawal → List Withdrawal
  | [] => []
  | x :: xs => insertDateDesc x (sortByDateDesc xs)

/-- In-place status write at index i on the stored (unsorted)
withdrawals list. -/
def setStatusAt : List Withdrawal → Nat → String → List Withdrawal
  | [], _, _ => []
  | w :: rest, 0, s => { w with status := s } :: rest
  | w :: rest, Nat.succ n, s => w :: setStatusAt rest n s

namespace ConfigManager

/-- The status-update branch of `manage_withdrawals`
(src/config_manager.py lines 461-504): the expander loop enumerates the
date-sorted withdrawals, so `i` is a position in the sorted display
list, but on Update the code writes the new status at index i of the
original stored list and saves it; the accounts
collection is never loaded or written. -/
def update_withdrawal_status (withdrawals : List Withdrawal) (accounts : List LAccount)
    (i : Nat) (new_status : String) : List Withdrawal × List LAccount :=
  let w := (sortByDateDesc withdrawals).getD i default
  if new_status = w.status then (withdrawals, accounts)
  else (setStatusAt withdrawals i new_status, accounts)

end ConfigManager

/-- C10. Status update hits the wrong record: with two pending
withdrawals stored in creation order (January then February), the sorted
display shows the February one first; updating the displayed first entry
to paid leaves every account record untouched, but writes the status of
the January withdrawal — the February one stays pending, so the update
does not modify (only) the status field of the edited withdrawal. -/
theorem c10_status_update_wrong_record (accounts : List LAccount) :
    (sortByDateDesc
        [⟨1, "acct", "TR-1", "Tradeify", 500, "2025-01-01", "pending", ⟨500, 0, 0, 0⟩, "", ""⟩,
         ⟨2, "acct", "TR-1", "Tradeify", 800, "2025-02-01", "pending", ⟨0, 800, 0, 0⟩, "", ""⟩]).getD
        0 default =
      ⟨2, "acct", "TR-1", "Tradeify", 800, "2025-02-01", "pending", ⟨0, 800, 0, 0⟩, "", ""⟩ ∧
    ConfigManager.update_withdrawal_status
        [⟨1, "acct", "TR-1", "Tradeify", 500, "2025-01-01", "pending", ⟨500, 0, 0, 0⟩, "", ""⟩,
         ⟨2, "acct", "TR-1", "Tradeify", 800, "2025-02-01", "pending", ⟨0, 800, 0, 0⟩, "", ""⟩]
        accounts 0 "paid" =
      ([⟨1, "acct", "TR-1", "Tradeify", 500, "2025-01-01", "paid", ⟨500, 0, 0, 0⟩, "", ""⟩,
        ⟨2, "acct", "TR-1", "Tradeify", 800, "2025-02-01", "pending", ⟨0, 800, 0, 0⟩, "", ""⟩],
       accounts) := by
  constructor
  · rfl
  · rfl

end TradingManager
